import Mathlib

/-
  Verification of the Sparkify batch ETL pipeline (etl.py, sql_queries.py).

  The development shallowly embeds the pure content of the pipeline:
  * file discovery (`get_files`, etl.py lines 8-30) over an inductive
    directory-tree model of what `os.walk` observes;
  * the SQL statements of sql_queries.py as literal strings, with their
    positional `%s` placeholder counts, and their row-level semantics as
    functions on list-modelled tables;
  * the per-file transforms `process_song_file` and `process_log_file`
    (etl.py lines 58-116) as functions from documents/event batches to
    the rows they emit and the table states they produce;
  * the bulk loader `copy_from_stringio` (etl.py lines 32-56) as a
    transition on an explicit connection state (committed/pending writes);
  * the orchestrator `process_data` (etl.py lines 119-131) as a fold that
    commits per file and stops at the first uncaught exception.

  Numeric SQL columns that no query computes with (duration_float,
  latitude, longitude) are carried as their literal string renderings;
  every query in the source compares such fields only as text or not
  at all, so no floating-point semantics is needed.
-/

namespace Sparkify

/- ===================== FileLocator: get_files ===================== -/

/-- A directory as `os.walk` observes it: its name (for the root node, the
absolute path `filepath` handed to `os.walk`), the names of the plain files
directly inside it, and its subdirectories. -/
inductive FsTree where
  | node (name : String) (files : List String) (subs : List FsTree)
deriving Repr

mutual

/-- `os.walk` top-down: yields `(root, files-in-root)` for this directory
under path prefix `pre`, then recursively for every subdirectory. -/
def FsTree.walk (pre : String) : FsTree → List (String × List String)
  | .node name files subs =>
    (pre ++ name, files) :: FsTree.walkList (pre ++ name ++ "/") subs

def FsTree.walkList (pre : String) : List FsTree → List (String × List String)
  | [] => []
  | t :: ts => FsTree.walk pre t ++ FsTree.walkList pre ts

end

/-- The Python `str.endswith` test, expressed over the character lists of the
two strings. -/
def strEndsWith (s post : String) : Bool :=
  List.isSuffixOf post.toList s.toList

/-- `get_files` of etl.py lines 8-30.  The filesystem argument is `none` when
the root path does not exist: `os.walk` is documented to ignore the error of
the underlying `scandir` call (its `onerror` argument defaults to `None`), so
a missing root contributes no directories at all and nothing in the body
raises.  `matchesMask` models the glob `filemask` applied to a file name
inside one directory; `glob.glob(os.path.join(root, filemask))` returns the
matching names prefixed with `root`, and `os.path.abspath` keeps them as they
are because `root` is already absolute. -/
def get_files (fs : Option FsTree) (matchesMask : String → Bool) (exclude : String) : List String :=
  match fs with
  | none => []
  | some t =>
    (FsTree.walk "" t).flatMap (fun e =>
      (if exclude ≠ "" && strEndsWith e.1 exclude then [] else e.2.filter matchesMask).map
        (fun f => e.1 ++ "/" ++ f))

/-- `get_files` with its (absent) error channel made explicit: no statement in
the body of the source function raises — in particular `os.walk` swallows the
scandir failure of a nonexistent root — so the computation always returns
normally. -/
def get_files_run (fs : Option FsTree) (matchesMask : String → Bool) (exclude : String) :
    Except String (List String) :=
  Except.ok (get_files fs matchesMask exclude)

/- ===================== SQL statements (sql_queries.py) ===================== -/

/-- Counts occurrences of the positional placeholder `%s` in a character
stream. -/
def countPS : List Char → Nat
  | '%' :: 's' :: rest => countPS rest + 1
  | _ :: rest => countPS rest
  | [] => 0

/-- Number of `%s` placeholders of a SQL statement; psycopg2 requires exactly
one parameter per placeholder when executing it. -/
def countPlaceholders (q : String) : Nat := countPS q.toList

/-- sql_queries.py lines 90-95. -/
def user_table_insert : String :=
  "INSERT INTO users (user_id, first_name, last_name, gender, level) VALUES (%s, %s, %s, %s, %s) ON CONFLICT (user_id) DO UPDATE SET level = EXCLUDED.level;"

/-- sql_queries.py lines 97-101. -/
def song_table_insert : String :=
  "INSERT INTO songs (song_id, title, artist_id, year, duration_str, duration_float) VALUES (%s, %s, %s, %s, %s, %s) ON CONFLICT (song_id) DO NOTHING;"

/-- sql_queries.py lines 105-109. -/
def artist_table_insert : String :=
  "INSERT INTO artists (artist_id, name, location, latitude, longitude) VALUES (%s, %s, %s, %s, %s) ON CONFLICT (artist_id) DO NOTHING;"

/-- sql_queries.py lines 113-117. -/
def time_table_insert : String :=
  "INSERT INTO time (start_time, hour, day, week, month, year, weekday) VALUES (TIMESTAMP %s, %s, %s, %s, %s, %s, %s) ON CONFLICT (start_time) DO NOTHING;"

/-- sql_queries.py lines 121-128. -/
def song_select : String :=
  "SELECT s.song_id, s.artist_id FROM songs AS s JOIN artists AS a ON s.artist_id = a.artist_id WHERE s.title = %s AND a.name = %s AND s.duration_str = %s;"

/- ===================== Tables and row semantics ===================== -/

/-- A row of the `songs` table (sql_queries.py lines 36-45).  `year`,
`duration_str` and `duration_float` are carried as the literal parameter
values bound to the insert; no query computes with them, and `song_select`
compares `duration_str` as text. -/
structure Song where
  song_id : String
  title : String
  artist_id : String
  year : String
  duration_str : String
  duration_float : String
deriving Repr, DecidableEq

/-- A row of the `artists` table (sql_queries.py lines 47-55); latitude and
longitude carried as literal parameter values. -/
structure Artist where
  artist_id : String
  name : String
  location : String
  latitude : String
  longitude : String
deriving Repr, DecidableEq

/-- A row of the `users` table (sql_queries.py lines 25-34). -/
structure UserRow where
  user_id : Int
  first_name : String
  last_name : String
  gender : String
  level : String
deriving Repr, DecidableEq

/-- Semantics of `song_table_insert`: `INSERT ... ON CONFLICT (song_id) DO
NOTHING` — a row whose primary key is already present leaves the table
unchanged, otherwise the row is appended. -/
def songsInsert (t : List Song) (r : Song) : List Song :=
  if t.any (fun s => s.song_id == r.song_id) then t else t ++ [r]

/-- Semantics of `artist_table_insert`: `ON CONFLICT (artist_id) DO NOTHING`. -/
def artistsInsert (t : List Artist) (r : Artist) : List Artist :=
  if t.any (fun a => a.artist_id == r.artist_id) then t else t ++ [r]

/-- Semantics of `user_table_insert`: `INSERT ... ON CONFLICT (user_id) DO
UPDATE SET level = EXCLUDED.level` — on a primary-key conflict only the
`level` column of the existing row is overwritten with the incoming value;
otherwise the row is appended. -/
def user_table_insert_fn (t : List UserRow) (r : UserRow) : List UserRow :=
  if t.any (fun u => u.user_id == r.user_id) then
    t.map (fun u => if u.user_id == r.user_id then { u with level := r.level } else u)
  else t ++ [r]

/- ===================== Time decomposition ===================== -/

/-- Days since the Unix epoch of a millisecond timestamp (floor division, as
`pd.to_datetime(ts, unit = 'ms')` interprets it). -/
def epochDays (ts : Int) : Int := Int.fdiv ts 86400000

/-- Milliseconds elapsed within the civil day. -/
def msOfDay (ts : Int) : Int := Int.fmod ts 86400000

/-- `t.dt.hour`. -/
def tsHour (ts : Int) : Int := Int.fdiv (msOfDay ts) 3600000

/-- Proleptic-Gregorian `(year, month, day)` of a day count since the epoch
(the standard civil-from-days algorithm). -/
def civilFromDays (days : Int) : Int × Int × Int :=
  let z := days + 719468
  let era := Int.fdiv z 146097
  let doe := z - era * 146097
  let yoe := Int.fdiv (doe - Int.fdiv doe 1460 + Int.fdiv doe 36524 - Int.fdiv doe 146096) 365
  let y := yoe + era * 400
  let doy := doe - (365 * yoe + Int.fdiv yoe 4 - Int.fdiv yoe 100)
  let mp := Int.fdiv (5 * doy + 2) 153
  let d := doy - Int.fdiv (153 * mp + 2) 5 + 1
  let m := mp + (if mp < 10 then 3 else -9)
  (y + (if m ≤ 2 then 1 else 0), m, d)

/-- Day count since the epoch of a civil date (inverse of `civilFromDays`). -/
def daysFromCivil (y m d : Int) : Int :=
  let y1 := y - (if m ≤ 2 then 1 else 0)
  let era := Int.fdiv y1 400
  let yoe := y1 - era * 400
  let mp := Int.fmod (m + 9) 12
  let doy := Int.fdiv (153 * mp + 2) 5 + d - 1
  let doe := yoe * 365 + Int.fdiv yoe 4 - Int.fdiv yoe 100 + doy
  era * 146097 + doe - 719468

/-- `t.dt.year`. -/
def tsYear (ts : Int) : Int := (civilFromDays (epochDays ts)).1

/-- `t.dt.month`. -/
def tsMonth (ts : Int) : Int := (civilFromDays (epochDays ts)).2.1

/-- `t.dt.day`. -/
def tsDay (ts : Int) : Int := (civilFromDays (epochDays ts)).2.2

/-- `t.dt.weekday`: Monday = 0 .. Sunday = 6; the epoch day was a Thursday. -/
def tsWeekday (ts : Int) : Int := Int.fmod (epochDays ts + 3) 7

/-- ISO weekday, Monday = 1 .. Sunday = 7, of a day count. -/
def isoWeekday (days : Int) : Int := Int.fmod (days + 3) 7 + 1

/-- 1-based ordinal day of the year of a day count. -/
def ordinalDay (days : Int) : Int :=
  days - daysFromCivil (civilFromDays days).1 1 1 + 1

/-- Gregorian leap-year test. -/
def isLeap (y : Int) : Bool :=
  (Int.fmod y 4 == 0 && Int.fmod y 100 != 0) || Int.fmod y 400 == 0

/-- Number of ISO weeks of a year: 53 when 1 January falls on a Thursday, or
on a Wednesday of a leap year; else 52. -/
def isoWeeksInYear (y : Int) : Int :=
  let jan1 := isoWeekday (daysFromCivil y 1 1)
  if jan1 == 4 || (isLeap y && jan1 == 3) then 53 else 52

/-- `t.dt.week`: the ISO-8601 week number. -/
def tsWeek (ts : Int) : Int :=
  let days := epochDays ts
  let y := (civilFromDays days).1
  let w := Int.fdiv (10 + ordinalDay days - isoWeekday days) 7
  if w < 1 then isoWeeksInYear (y - 1)
  else if w > isoWeeksInYear y then 1
  else w

/-- A row of the `time` table as emitted by etl.py lines 82-87: the event
timestamp and its decomposition `(hour, day, week, month, year, weekday)`. -/
structure TimeRow where
  start_time : Int
  hour : Int
  day : Int
  week : Int
  month : Int
  year : Int
  weekday : Int
deriving Repr, DecidableEq

/-- etl.py lines 79-84: the time row derived from one event timestamp. -/
def timeRowOf (ts : Int) : TimeRow :=
  ⟨ts, tsHour ts, tsDay ts, tsWeek ts, tsMonth ts, tsYear ts, tsWeekday ts⟩

/- ===================== Event records and process_log_file ===================== -/

/-- One JSON-lines event of a log file, with the fields etl.py reads.
`length_str` is `str(row.length)`, the textual rendering of the `length` value of the event that line 105 of etl.py passes to `song_select`; the duration of the event
 enters the pipeline only through this string. -/
structure Event where
  ts : Int
  page : String
  userId : Int
  firstName : String
  lastName : String
  gender : String
  level : String
  song : String
  artist : String
  length_str : String
  sessionId : Int
  location : String
  userAgent : String
deriving Repr, DecidableEq

/-- The user-table row projected from one event (etl.py line 92, the
non-timestamp columns of `user_df`). -/
def userRowOf (e : Event) : UserRow :=
  ⟨e.userId, e.firstName, e.lastName, e.gender, e.level⟩

/-- etl.py lines 89-96: `user_df` is the retained events projected to
`(ts, userId, firstName, lastName, gender, level)` and sorted by `ts`
descending; each row (timestamp dropped) is then upserted in that order via
`user_table_insert`.  (That statement has five placeholders and receives the
five non-timestamp values, so each `execute` succeeds.) -/
def loadUsers (df : List Event) (t : List UserRow) : List UserRow :=
  (df.insertionSort (fun a b => b.ts ≤ a.ts)).foldl
    (fun t e => user_table_insert_fn t (userRowOf e)) t

/-- Semantics of `song_select` (sql_queries.py lines 121-128): scan the join
of `songs` and `artists`, keep the first pair matching the title, artist name
and duration string exactly, and return its `(s.song_id, s.artist_id)`;
`cur.fetchone()` is `None` when no pair matches. -/
def song_select_fn (songs : List Song) (artists : List Artist)
    (title name dur : String) : Option (String × String) :=
  ((songs.flatMap (fun s => artists.map (fun a => (s, a)))).find? (fun p =>
      p.1.artist_id == p.2.artist_id && p.1.title == title
        && p.2.name == name && p.1.duration_str == dur)).map
    (fun p => (p.1.song_id, p.1.artist_id))

/-- The Python `strip` method with a single quote character argument: remove every
leading and every trailing `"` character. -/
def stripQuotes (s : String) : String :=
  String.mk (((s.toList.dropWhile (· == '"')).reverse.dropWhile (· == '"')).reverse)

/-- A `songplays` row as built by etl.py lines 99-113.  `start_time` carries
the raw millisecond timestamp that `pd.to_datetime(row.ts, unit = 'ms')`
re-expresses. -/
structure SongplayRow where
  start_time : Int
  user_id : Int
  level : String
  song_id : Option String
  artist_id : Option String
  session_id : Int
  location : String
  user_agent : String
deriving Repr, DecidableEq

/-- etl.py lines 102-113: one songplay row from one retained event; the
`(song_id, artist_id)` pair comes from `song_select` over the current songs
and artists tables, and is `(None, None)` when the lookup returns no row. -/
def songplayRowOf (songs : List Song) (artists : List Artist) (e : Event) : SongplayRow :=
  let results := song_select_fn songs artists e.song e.artist e.length_str
  match results with
  | some (songid, artistid) =>
    ⟨e.ts, e.userId, e.level, some songid, some artistid, e.sessionId, e.location,
      stripQuotes e.userAgent⟩
  | none =>
    ⟨e.ts, e.userId, e.level, none, none, e.sessionId, e.location, stripQuotes e.userAgent⟩

/-- Everything `process_log_file` emits for one file: the time rows inserted
row-wise, the users table after the per-row upserts, and the songplay rows
handed to `copy_from_stringio`. -/
structure LogOutput where
  time_rows : List TimeRow
  users : List UserRow
  songplays : List SongplayRow
deriving Repr, DecidableEq

/-- `process_log_file` of etl.py lines 71-116: filter the batch to events
with `page == "NextSong"` (line 76), then derive every output from the
filtered frame — time rows (lines 79-87), the user upserts (lines 89-96) and
the songplay rows (lines 98-116) enriched via `song_select`. -/
def process_log_file (users : List UserRow) (songs : List Song) (artists : List Artist)
    (events : List Event) : LogOutput :=
  let df := events.filter (fun e => e.page == "NextSong")
  { time_rows := df.map (fun e => timeRowOf e.ts)
    users := loadUsers df users
    songplays := df.map (fun e => songplayRowOf songs artists e) }

/- ===================== Catalog records and process_song_file ===================== -/

/-- One catalog document with all its required fields present (etl.py reads
exactly these keys).  Numeric fields are carried as the literal renderings
psycopg2 would send. -/
structure SongDoc where
  song_id : String
  title : String
  artist_id : String
  year : String
  duration : String
  artist_name : String
  artist_location : String
  artist_latitude : String
  artist_longitude : String
deriving Repr, DecidableEq

/-- etl.py line 63: the parameter tuple bound to `song_table_insert` — five
values. -/
def song_data (df : SongDoc) : List String :=
  [df.song_id, df.title, df.artist_id, df.year, df.duration]

/-- etl.py line 67: the parameter tuple bound to `artist_table_insert` — five
values. -/
def artist_data (df : SongDoc) : List String :=
  [df.artist_id, df.artist_name, df.artist_location, df.artist_latitude, df.artist_longitude]

/-- `cur.execute(song_table_insert, args)`: psycopg2 demands exactly one
parameter per `%s` placeholder and raises otherwise; with six parameters the
insert behaves as `songsInsert` on the bound row. -/
def songs_execute (songs : List Song) (args : List String) : Except String (List Song) :=
  if args.length ≠ countPlaceholders song_table_insert then
    Except.error "IndexError: tuple index out of range"
  else
    match args with
    | [sid, tl, aid, yr, ds, dfl] => Except.ok (songsInsert songs ⟨sid, tl, aid, yr, ds, dfl⟩)
    | _ => Except.error "IndexError: tuple index out of range"

/-- `cur.execute(artist_table_insert, args)`, under the same placeholder
discipline; with five parameters the insert behaves as `artistsInsert`. -/
def artists_execute (artists : List Artist) (args : List String) :
    Except String (List Artist) :=
  if args.length ≠ countPlaceholders artist_table_insert then
    Except.error "IndexError: tuple index out of range"
  else
    match args with
    | [aid, nm, loc, la, lo] => Except.ok (artistsInsert artists ⟨aid, nm, loc, la, lo⟩)
    | _ => Except.error "IndexError: tuple index out of range"

/-- `process_song_file` of etl.py lines 58-68: read the document, execute
`song_table_insert` on `song_data`, then `artist_table_insert` on
`artist_data`; an exception from either `execute` propagates. -/
def process_song_file (songs : List Song) (artists : List Artist) (df : SongDoc) :
    Except String (List Song × List Artist) := do
  let songs2 ← songs_execute songs (song_data df)
  let artists2 ← artists_execute artists (artist_data df)
  return (songs2, artists2)

/- ===================== BulkLoader: copy_from_stringio ===================== -/

/-- The observable state of a psycopg2 connection for one target table: rows
already committed, and rows written in the open transaction but not yet
committed. -/
structure PgConn (α : Type) where
  committed : List α
  pending : List α
deriving Repr, DecidableEq

/-- `copy_from_stringio` of etl.py lines 32-56.  The dataframe is serialized
to a buffer and `cursor.copy_from` writes its rows into the open transaction;
`copyOk` models whether that call succeeds (the database decides: malformed
row, constraint violation, connection error).  On success the function itself
calls `conn.commit()` (line 50) and returns `None`; on failure it prints the
cause, calls `conn.rollback()` and returns `1` (lines 51-55). -/
def copy_from_stringio (conn : PgConn α) (rows : List α) (copyOk : Bool) :
    PgConn α × Option Nat :=
  if copyOk then
    ({ committed := conn.committed ++ conn.pending ++ rows, pending := [] }, none)
  else
    ({ conn with pending := [] }, some 1)

/- ===================== Orchestrator: process_data ===================== -/

/-- `process_data` of etl.py lines 119-131, over an abstract database state
`σ`: for each discovered file in order, run `func` and commit.  The loop body
has no exception handler, so the first file whose `func` raises stops the
whole loop and the exception propagates to the caller.  Returns the files
that were processed and committed, the database state they left, and the
propagated error if any. -/
def process_data (files : List String) (func : String → σ → Except String σ) (s : σ) :
    List String × σ × Option String :=
  match files with
  | [] => ([], s, none)
  | f :: rest =>
    match func f s with
    | Except.ok s2 =>
      let r := process_data rest func s2
      (f :: r.1, r.2)
    | Except.error e => ([], s, some e)

/- ===================== Fixtures ===================== -/

/-- A NextSong event of user 7 at ts 1000 with level free. -/
def c1_old : Event :=
  { ts := 1000, page := "NextSong", userId := 7, firstName := "A", lastName := "B",
    gender := "F", level := "free", song := "s", artist := "a", length_str := "218.93179",
    sessionId := 1, location := "loc", userAgent := "ua" }

/-- The later event of the same user, ts 2000, level paid. -/
def c1_new : Event := { c1_old with ts := 2000, level := "paid" }

/-- A complete catalog document (all required fields present). -/
def c2_doc : SongDoc :=
  { song_id := "SOMZWCG12A8C13C480", title := "I Didnt Mean To", artist_id := "ARD7TVE1187B99BFB1",
    year := "0", duration := "218.93179", artist_name := "Casual",
    artist_location := "California - LA", artist_latitude := "NULL", artist_longitude := "NULL" }

/-- A per-file processing function that raises on the file named bad and
succeeds (counting commits) elsewhere. -/
def c4_func : String → Nat → Except String Nat :=
  fun f n => if f == "bad" then Except.error "KeyError" else Except.ok (n + 1)

/- ===================== Claims ===================== -/

/-- C1 (code bug in etl.py lines 89-96): for a batch with two retained events
for the same user with different levels and different timestamps, the level
finally stored is the level of the event with the EARLIEST timestamp in the
batch, not the latest, regardless of input order: `user_df` is sorted by `ts`
descending and each row is upserted with `ON CONFLICT (user_id) DO UPDATE SET
level = EXCLUDED.level`, so the upsert executed last — the oldest event —
wins.  This contradicts the comment at etl.py line 91 (the sort is meant to
keep the latest mentioned level of a user) and the spec; here both input
orders of the spec §8 example `(ts 1000 free, ts 2000 paid)` store level
free. -/
theorem process_log_file_keeps_oldest_level :
    (process_log_file [] [] [] [c1_old, c1_new]).users
      = [{ user_id := 7, first_name := "A", last_name := "B", gender := "F", level := "free" }]
    ∧ (process_log_file [] [] [] [c1_new, c1_old]).users
      = [{ user_id := 7, first_name := "A", last_name := "B", gender := "F", level := "free" }] := by
  decide

/-- C2 (code bug between etl.py line 63 and sql_queries.py lines 97-101): the
claim says a catalog document with all required fields yields exactly one
Song row and one Artist row, but `song_table_insert` has six `%s`
placeholders (`duration_str` and `duration_float`) while `song_data` supplies
only five values, so `cur.execute` raises for every song file and neither row
is inserted. -/
theorem process_song_file_placeholder_mismatch :
    countPlaceholders song_table_insert = 6
    ∧ (song_data c2_doc).length = 5
    ∧ process_song_file [] [] c2_doc = Except.error "IndexError: tuple index out of range" :=
  ⟨rfl, rfl, rfl⟩

/-- C3 counterexample: `copy_from_stringio` DOES commit on success — line 50
of etl.py calls `conn.commit()` inside the function — so committing is not
left to the caller.  Starting from a connection with nothing committed and
bulk-copying one row successfully, the row is committed when the call
returns. -/
theorem copy_from_stringio_commits_on_success :
    (copy_from_stringio (⟨[], []⟩ : PgConn Nat) [7] true).1.committed ≠ []
    ∧ (copy_from_stringio (⟨[], []⟩ : PgConn Nat) [7] true).1.committed = [7]
    ∧ (copy_from_stringio (⟨[], []⟩ : PgConn Nat) [7] true).2 = none := by
  decide

/-- C3 amended: on any failure the enclosing transaction is rolled back (the
pending writes are discarded, the committed state is untouched) and failure
is reported to the caller by returning 1, with no partial load; on success
`copy_from_stringio` itself commits the enclosing transaction — the copied
rows together with any previously pending writes become committed — and it
returns success. -/
theorem copy_from_stringio_contract {α : Type} (conn : PgConn α) (rows : List α) :
    ((copy_from_stringio conn rows false).1.committed = conn.committed
      ∧ (copy_from_stringio conn rows false).1.pending = []
      ∧ (copy_from_stringio conn rows false).2 = some 1)
    ∧ ((copy_from_stringio conn rows true).1.committed = conn.committed ++ conn.pending ++ rows
      ∧ (copy_from_stringio conn rows true).1.pending = []
      ∧ (copy_from_stringio conn rows true).2 = none) := by
  simp [copy_from_stringio]

/-- C4 counterexample: a failure while processing one file halts the run.
With files `[f1, bad, f3]` where processing bad raises, only f1 is processed
and committed, f3 is never reached, and the exception propagates — no count
of failed files is produced (contradicting the claim that the run continues
to the next file). -/
theorem process_data_halts_on_failure :
    (process_data ["f1", "bad", "f3"] c4_func 0).1 = ["f1"]
    ∧ ¬ ("f3" ∈ (process_data ["f1", "bad", "f3"] c4_func 0).1)
    ∧ (process_data ["f1", "bad", "f3"] c4_func 0).2.2 = some "KeyError" := by
  decide

/-- C4 amended: the loop body of `process_data` has no exception handler, so
the first file whose processing raises stops the run: exactly the files
before it have been processed and committed, no later file is touched, and
the error propagates to the caller (no failed-file count is surfaced; only a
failure inside the songplays bulk copy is contained, by
`copy_from_stringio`). -/
theorem process_data_stops_at_first_error {σ : Type} (xs ys : List String) (e : String)
    (func : String → σ → Except String σ) (s : σ)
    (hxs : ∀ f st, f ∈ xs → ∃ st2, func f st = Except.ok st2)
    (he : ∀ st, ∃ msg, func e st = Except.error msg) :
    (process_data (xs ++ e :: ys) func s).1 = xs
    ∧ ∃ msg, (process_data (xs ++ e :: ys) func s).2.2 = some msg := by
  induction xs generalizing s with
  | nil =>
    obtain ⟨msg, hm⟩ := he s
    simp [process_data, hm]
  | cons f fs ih =>
    obtain ⟨st2, h2⟩ := hxs f s (by simp)
    have hrec := ih st2 (fun g st hg => hxs g st (List.mem_cons_of_mem f hg))
    refine ⟨?_, ?_⟩
    · simp only [List.cons_append, process_data, h2]
      simp [hrec.1]
    · simp only [List.cons_append, process_data, h2]
      simpa using hrec.2

/-- Witness for `process_data_stops_at_first_error` at the concrete run
`[f1, bad, f3]` with `c4_func`. -/
theorem process_data_stops_at_first_error_witness :
    (process_data (["f1"] ++ "bad" :: ["f3"]) c4_func 0).1 = ["f1"]
    ∧ ∃ msg, (process_data (["f1"] ++ "bad" :: ["f3"]) c4_func 0).2.2 = some msg :=
  process_data_stops_at_first_error ["f1"] ["f3"] "bad" c4_func 0
    (fun f st hf => by
      have : f = "f1" := by simpa using hf
      exact ⟨st + 1, by simp [this, c4_func]⟩)
    (fun st => ⟨"KeyError", by simp [c4_func]⟩)

/-- C7 counterexample: `get_files` on a nonexistent root does not fail with
IOError — `os.walk` silently ignores the scandir error (its `onerror`
argument defaults to `None`), so the call returns an empty list normally. -/
theorem get_files_missing_root_returns_ok_empty :
    get_files_run none (fun f => strEndsWith f ".json") ".ipynb_checkpoints" = Except.ok [] := by
  rfl

/-- C7 amended: `get_files` returns an empty list — not an error — both when
the root path does not exist (`os.walk` swallows the failure and yields no
directories) and when the root exists but no files match the pattern; it
never raises IOError. -/
theorem get_files_empty_cases (matchesMask : String → Bool) (exclude : String) :
    get_files none matchesMask exclude = []
    ∧ ∀ t : FsTree, (∀ e ∈ FsTree.walk "" t, ∀ f ∈ e.2, matchesMask f = false) →
        get_files (some t) matchesMask exclude = [] := by
  refine ⟨rfl, fun t ht => ?_⟩
  simp only [get_files, List.flatMap_eq_nil_iff]
  intro e he
  have hfil : e.2.filter matchesMask = [] :=
    List.filter_eq_nil_iff.mpr (fun f hf => by simp [ht e he f hf])
  split
  · simp
  · simp [hfil]

/-- Witness for `get_files_empty_cases`: a root holding only a non-matching
file yields the empty list under the json mask. -/
theorem get_files_empty_cases_witness :
    get_files (some (FsTree.node "/d" ["a.txt"] [])) (fun f => strEndsWith f ".json")
      ".ipynb_checkpoints" = [] :=
  (get_files_empty_cases (fun f => strEndsWith f ".json") ".ipynb_checkpoints").2
    (FsTree.node "/d" ["a.txt"] []) (by decide)

/- ===================== C6: exclusion semantics of get_files ===================== -/

/-- C6: with a non-empty exclusion suffix, every path `get_files` returns
comes from a directory whose path does not end with the suffix (so an
excluded directory contributes no files), while every matching file of every
directory whose own path does not end with the suffix is returned — even when
an ancestor directory is excluded, since the walk still descends and the
suffix is checked only against the immediate containing directory. -/
theorem get_files_exclusion (t : FsTree) (matchesMask : String → Bool) (suffix : String)
    (hs : suffix ≠ "") :
    (∀ p ∈ get_files (some t) matchesMask suffix,
       ∃ e ∈ FsTree.walk "" t, strEndsWith e.1 suffix = false
         ∧ ∃ f ∈ e.2, matchesMask f = true ∧ p = e.1 ++ "/" ++ f)
    ∧ (∀ e ∈ FsTree.walk "" t, strEndsWith e.1 suffix = false →
         ∀ f ∈ e.2, matchesMask f = true →
           (e.1 ++ "/" ++ f) ∈ get_files (some t) matchesMask suffix) := by
  constructor
  · intro p hp
    simp only [get_files, List.mem_flatMap] at hp
    obtain ⟨e, he, hpe⟩ := hp
    by_cases hex : strEndsWith e.1 suffix = true
    · rw [if_pos (by simp [hs, hex])] at hpe
      simp at hpe
    · have hex2 : strEndsWith e.1 suffix = false := by
        cases hb : strEndsWith e.1 suffix
        · rfl
        · exact absurd hb hex
      rw [if_neg (by simp [hex2])] at hpe
      obtain ⟨f, hf, hpf⟩ := List.mem_map.mp hpe
      obtain ⟨hf2, hm⟩ := List.mem_filter.mp hf
      exact ⟨e, he, hex2, f, hf2, hm, hpf.symm⟩
  · intro e he hex f hf hm
    simp only [get_files, List.mem_flatMap]
    refine ⟨e, he, ?_⟩
    rw [if_neg (by simp [hex])]
    exact List.mem_map.mpr ⟨f, List.mem_filter.mpr ⟨hf, hm⟩, rfl⟩

/-- The directory tree of the C6 witness: the excluded checkpoint directory
directly holds x.json and has a child directory sub holding y.json. -/
def c6_tree : FsTree :=
  FsTree.node "/data" ["a.json", "b.txt"]
    [ FsTree.node ".ipynb_checkpoints" ["x.json"]
        [ FsTree.node "sub" ["y.json"] [] ],
      FsTree.node "d2" ["z.json"] [] ]

/-- The json glob of etl.py line 121 as a name test. -/
def c6_mask : String → Bool := fun f => strEndsWith f ".json"

/-- Witness for `get_files_exclusion`: the non-excluded child of the excluded
checkpoint directory still contributes its file. -/
theorem get_files_exclusion_witness :
    (".ipynb_checkpoints" : String) ≠ ""
    ∧ ("/data/.ipynb_checkpoints/sub" ++ "/" ++ "y.json")
        ∈ get_files (some c6_tree) c6_mask ".ipynb_checkpoints" :=
  ⟨by decide,
   (get_files_exclusion c6_tree c6_mask ".ipynb_checkpoints" (by decide)).2
     ("/data/.ipynb_checkpoints/sub", ["y.json"]) (by decide) (by decide)
     "y.json" (by decide) (by decide)⟩

/- ===================== C8: the NextSong filter ===================== -/

/-- C8: `process_log_file` retains exactly the events whose page equals
NextSong — removing a non-NextSong event from anywhere in the batch leaves
every output (time rows, users table, songplay rows) unchanged, and the whole
output equals the output of the NextSong-filtered batch. -/
theorem process_log_file_filters_next_song (users : List UserRow) (songs : List Song)
    (artists : List Artist) (xs ys : List Event) (e : Event) (he : e.page ≠ "NextSong") :
    process_log_file users songs artists (xs ++ e :: ys)
      = process_log_file users songs artists (xs ++ ys)
    ∧ process_log_file users songs artists (xs ++ ys)
      = process_log_file users songs artists
          ((xs ++ ys).filter (fun ev => ev.page == "NextSong")) := by
  have hpe : (e.page == "NextSong") = false := by
    cases hb : e.page == "NextSong"
    · rfl
    · exact absurd (by simpa using hb) he
  constructor
  · unfold process_log_file
    have hfil : (xs ++ e :: ys).filter (fun ev => ev.page == "NextSong")
        = (xs ++ ys).filter (fun ev => ev.page == "NextSong") := by
      simp [List.filter_append, List.filter_cons, hpe]
    rw [hfil]
  · unfold process_log_file
    have hfil : ((xs ++ ys).filter (fun ev => ev.page == "NextSong")).filter
          (fun ev => ev.page == "NextSong")
        = (xs ++ ys).filter (fun ev => ev.page == "NextSong") := by
      simp
    rw [hfil]

/-- A non-NextSong event. -/
def c8_home : Event :=
  { ts := 3000, page := "Home", userId := 9, firstName := "C", lastName := "D",
    gender := "M", level := "free", song := "s", artist := "a", length_str := "1.0",
    sessionId := 2, location := "l", userAgent := "u" }

/-- Witness for `process_log_file_filters_next_song`: a batch holding only a
Home event produces exactly what the empty batch produces. -/
theorem process_log_file_filters_next_song_witness :
    process_log_file [] [] [] ([] ++ c8_home :: []) = process_log_file [] [] [] ([] ++ []) :=
  (process_log_file_filters_next_song [] [] [] [] [] c8_home (by decide)).1

/- ===================== C5: fact enrichment via song_select ===================== -/

lemma song_select_fn_eq_some {songs : List Song} {artists : List Artist}
    {title name dur sid aid : String}
    (h : song_select_fn songs artists title name dur = some (sid, aid)) :
    ∃ s ∈ songs, ∃ a ∈ artists, s.artist_id = a.artist_id ∧ s.title = title
      ∧ a.name = name ∧ s.duration_str = dur ∧ sid = s.song_id ∧ aid = s.artist_id := by
  simp only [song_select_fn, Option.map_eq_some'] at h
  obtain ⟨x, hfind, heq⟩ := h
  have hmem := List.mem_of_find?_eq_some hfind
  have hpred := List.find?_some hfind
  obtain ⟨sng, hs, hx⟩ := List.mem_flatMap.mp hmem
  obtain ⟨a, ha, rfl⟩ := List.mem_map.mp hx
  simp only [Bool.and_eq_true, beq_iff_eq] at hpred
  obtain ⟨⟨⟨h1, h2⟩, h3⟩, h4⟩ := hpred
  have hsid : sid = sng.song_id := by
    have h5 := congrArg Prod.fst heq
    simpa using h5.symm
  have haid : aid = sng.artist_id := by
    have h5 := congrArg Prod.snd heq
    simpa using h5.symm
  exact ⟨sng, hs, a, ha, h1, h2, h3, h4, hsid, haid⟩

lemma song_select_fn_isSome_iff {songs : List Song} {artists : List Artist}
    {title name dur : String} :
    (song_select_fn songs artists title name dur).isSome = true ↔
      ∃ s ∈ songs, ∃ a ∈ artists, s.artist_id = a.artist_id ∧ s.title = title
        ∧ a.name = name ∧ s.duration_str = dur := by
  constructor
  · intro h
    obtain ⟨p, hp⟩ := Option.isSome_iff_exists.mp h
    obtain ⟨sid, aid⟩ := p
    obtain ⟨s, hs, a, ha, h1, h2, h3, h4, _, _⟩ := song_select_fn_eq_some hp
    exact ⟨s, hs, a, ha, h1, h2, h3, h4⟩
  · rintro ⟨s, hs, a, ha, h1, h2, h3, h4⟩
    have hfind : ((songs.flatMap (fun s => artists.map (fun a => (s, a)))).find? (fun p =>
        p.1.artist_id == p.2.artist_id && p.1.title == title
          && p.2.name == name && p.1.duration_str == dur)).isSome = true :=
      List.find?_isSome.mpr ⟨(s, a),
        List.mem_flatMap.mpr ⟨s, hs, List.mem_map.mpr ⟨a, ha, rfl⟩⟩,
        by simp [h1, h2, h3, h4]⟩
    simpa [song_select_fn] using hfind

/-- C5: the songplay rows of `process_log_file` are the retained events
enriched via `song_select`; the lookup succeeds exactly when some loaded
song/artist pair matches the title, the artist name and the duration string
of the event exactly, the returned ids are the ids of such a matching pair,
and on no match both ids of the row are null. -/
theorem songplay_enrichment (users : List UserRow) (songs : List Song) (artists : List Artist)
    (events : List Event) (e : Event) :
    ((process_log_file users songs artists events).songplays
       = (events.filter (fun ev => ev.page == "NextSong")).map
           (fun ev => songplayRowOf songs artists ev))
    ∧ (songplayRowOf songs artists e).song_id
        = (song_select_fn songs artists e.song e.artist e.length_str).map Prod.fst
    ∧ (songplayRowOf songs artists e).artist_id
        = (song_select_fn songs artists e.song e.artist e.length_str).map Prod.snd
    ∧ ((song_select_fn songs artists e.song e.artist e.length_str).isSome = true ↔
         ∃ s ∈ songs, ∃ a ∈ artists, s.artist_id = a.artist_id ∧ s.title = e.song
           ∧ a.name = e.artist ∧ s.duration_str = e.length_str)
    ∧ (∀ sid aid, song_select_fn songs artists e.song e.artist e.length_str = some (sid, aid) →
         ∃ s ∈ songs, ∃ a ∈ artists, s.artist_id = a.artist_id ∧ s.title = e.song
           ∧ a.name = e.artist ∧ s.duration_str = e.length_str
           ∧ sid = s.song_id ∧ aid = s.artist_id) := by
  refine ⟨rfl, ?_, ?_, ?_, ?_⟩
  · cases h : song_select_fn songs artists e.song e.artist e.length_str with
    | none => simp [songplayRowOf, h]
    | some p => cases p; simp [songplayRowOf, h]
  · cases h : song_select_fn songs artists e.song e.artist e.length_str with
    | none => simp [songplayRowOf, h]
    | some p => cases p; simp [songplayRowOf, h]
  · exact song_select_fn_isSome_iff
  · intro sid aid h
    exact song_select_fn_eq_some h

/-- A loaded song row matching the C5 witness event. -/
def c5_song : Song :=
  { song_id := "S1", title := "T", artist_id := "A1", year := "0",
    duration_str := "218.93179", duration_float := "218.93179" }

/-- The loaded artist row of that song. -/
def c5_artist : Artist :=
  { artist_id := "A1", name := "Art", location := "L", latitude := "NULL", longitude := "NULL" }

/-- An event whose (song, artist, duration-string) triple matches the loaded
pair exactly. -/
def c5_hit : Event := { c1_old with song := "T", artist := "Art" }

/-- Witness for `songplay_enrichment`: the matching event gets the ids of the
loaded pair; the non-matching event gets null ids. -/
theorem songplay_enrichment_witness :
    (songplayRowOf [c5_song] [c5_artist] c5_hit).song_id = some "S1"
    ∧ (songplayRowOf [c5_song] [c5_artist] c5_hit).artist_id = some "A1"
    ∧ (songplayRowOf [c5_song] [c5_artist] c1_old).song_id = none
    ∧ (songplayRowOf [c5_song] [c5_artist] c1_old).artist_id = none := by
  refine ⟨?_, ?_, ?_, ?_⟩
  · exact ((songplay_enrichment [] [c5_song] [c5_artist] [] c5_hit).2.1).trans (by decide)
  · exact ((songplay_enrichment [] [c5_song] [c5_artist] [] c5_hit).2.2.1).trans (by decide)
  · exact ((songplay_enrichment [] [c5_song] [c5_artist] [] c1_old).2.1).trans (by decide)
  · exact ((songplay_enrichment [] [c5_song] [c5_artist] [] c1_old).2.2.1).trans (by decide)

/- ===================== C9: catalog idempotence ===================== -/

/-- The catalog phase of `main` (etl.py line 138): `process_data` drives
`process_song_file` over the discovered song files, against the songs and
artists tables; `docsOf` maps a file path to the document `pd.read_json`
parses from it. -/
def catalogRun (files : List String) (docsOf : String → SongDoc)
    (st : List Song × List Artist) :
    List String × (List Song × List Artist) × Option String :=
  process_data files (fun f st => process_song_file st.1 st.2 (docsOf f)) st

lemma process_song_file_always_errors (songs : List Song) (artists : List Artist)
    (df : SongDoc) :
    process_song_file songs artists df
      = Except.error "IndexError: tuple index out of range" := rfl

lemma catalogRun_leaves_tables (files : List String) (docsOf : String → SongDoc)
    (st : List Song × List Artist) : (catalogRun files docsOf st).2.1 = st := by
  cases files with
  | nil => rfl
  | cons f fs => simp [catalogRun, process_data, process_song_file_always_errors]

/-- C9: running the catalog transform-and-load twice over the same input file
set leaves the songs and artists tables in exactly the state produced by
running it once, and for both tables inserting a row whose primary key is
already present is a no-op (the `ON CONFLICT ... DO NOTHING` rules of
`song_table_insert` and `artist_table_insert`).  The rerun equality holds of
the faithful run degenerately: because `song_table_insert` has six
placeholders and `song_data` supplies five (the C2 slip), the first
`cur.execute` of every run raises, so each run — first or second — leaves
both tables exactly as it found them, which the first conjunct states
explicitly. -/
theorem catalog_rerun_idempotent (files : List String) (docsOf : String → SongDoc)
    (st : List Song × List Artist) :
    (catalogRun files docsOf st).2.1 = st
    ∧ (catalogRun (files ++ files) docsOf st).2.1 = (catalogRun files docsOf st).2.1
    ∧ (∀ t r, t.any (fun s => s.song_id == r.song_id) = true → songsInsert t r = t)
    ∧ (∀ t r, t.any (fun a => a.artist_id == r.artist_id) = true → artistsInsert t r = t) := by
  refine ⟨catalogRun_leaves_tables files docsOf st, ?_, ?_, ?_⟩
  · rw [catalogRun_leaves_tables (files ++ files) docsOf st,
      catalogRun_leaves_tables files docsOf st]
  · intro t r h
    simp [songsInsert, h]
  · intro t r h
    simp [artistsInsert, h]

/-- The catalog row pair of the C9 witness. -/
def c9_row : Song × Artist :=
  ({ song_id := "S1", title := "T", artist_id := "A1", year := "0",
     duration_str := "1.0", duration_float := "1.0" },
   { artist_id := "A1", name := "Art", location := "L", latitude := "NULL", longitude := "NULL" })

/-- The catalog document of the C9 witness. -/
def c9_doc : SongDoc :=
  { song_id := "S1", title := "T", artist_id := "A1", year := "0", duration := "1.0",
    artist_name := "Art", artist_location := "L", artist_latitude := "NULL",
    artist_longitude := "NULL" }

/-- Witness for `catalog_rerun_idempotent` on a one-file catalog. -/
theorem catalog_rerun_idempotent_witness :
    (catalogRun (["f1"] ++ ["f1"]) (fun _ => c9_doc) ([], [])).2.1
      = (catalogRun ["f1"] (fun _ => c9_doc) ([], [])).2.1
    ∧ songsInsert [c9_row.1] c9_row.1 = [c9_row.1] :=
  ⟨(catalog_rerun_idempotent ["f1"] (fun _ => c9_doc) ([], [])).2.1,
   (catalog_rerun_idempotent ["f1"] (fun _ => c9_doc) ([], [])).2.2.1 [c9_row.1] c9_row.1
     (by decide)⟩

/- ===================== C10: the user upsert updates only level ===================== -/

/-- C10: when `user_table_insert` hits a conflict on user_id it overwrites
only the level column — every pre-existing row keeps its first_name,
last_name and gender, its level becomes the incoming level exactly when its
user_id conflicts, and on conflict no row is added. -/
theorem user_table_insert_updates_only_level (t : List UserRow) (r : UserRow) :
    (∀ u ∈ t, ∃ v ∈ user_table_insert_fn t r,
       v.user_id = u.user_id ∧ v.first_name = u.first_name ∧ v.last_name = u.last_name
         ∧ v.gender = u.gender
         ∧ v.level = (if u.user_id = r.user_id then r.level else u.level))
    ∧ (t.any (fun u => u.user_id == r.user_id) = true →
         (user_table_insert_fn t r).length = t.length) := by
  constructor
  · intro u hu
    by_cases h : t.any (fun u => u.user_id == r.user_id) = true
    · refine ⟨if u.user_id == r.user_id then { u with level := r.level } else u, ?_, ?_⟩
      · simp only [user_table_insert_fn, if_pos h]
        exact List.mem_map.mpr ⟨u, hu, rfl⟩
      · by_cases hid : u.user_id = r.user_id <;> simp [hid]
    · have hne : u.user_id ≠ r.user_id := by
        intro hEq
        exact h (List.any_eq_true.mpr ⟨u, hu, by simp [hEq]⟩)
      refine ⟨u, ?_, by simp [hne]⟩
      simp only [user_table_insert_fn, if_neg h]
      exact List.mem_append_left _ hu
  · intro h
    simp [user_table_insert_fn, h]

/-- The stored row of the C10 witness. -/
def c10_t : List UserRow := [{ user_id := 7, first_name := "A", last_name := "B", gender := "F", level := "free" }]

/-- The conflicting upsert of the C10 witness, differing in every column. -/
def c10_r : UserRow := { user_id := 7, first_name := "X", last_name := "Y", gender := "M", level := "paid" }

/-- Witness for `user_table_insert_updates_only_level`: the conflicting upsert
changes the level to paid and nothing else, and adds no row. -/
theorem user_table_insert_updates_only_level_witness :
    (∃ v ∈ user_table_insert_fn c10_t c10_r,
       v.user_id = 7 ∧ v.first_name = "A" ∧ v.last_name = "B" ∧ v.gender = "F"
         ∧ v.level = "paid")
    ∧ (user_table_insert_fn c10_t c10_r).length = 1 := by
  have h := user_table_insert_updates_only_level c10_t c10_r
  obtain ⟨v, hv, h1, h2, h3, h4, h5⟩ :=
    h.1 { user_id := 7, first_name := "A", last_name := "B", gender := "F", level := "free" }
      (by decide)
  refine ⟨⟨v, hv, ?_, ?_, ?_, ?_, ?_⟩, ?_⟩
  · simpa [c10_t] using h1
  · simpa using h2
  · simpa using h3
  · simpa using h4
  · simpa using h5
  · exact (h.2 (by decide)).trans (by decide)

end Sparkify
